import Mathlib

/-!
Verification of `click_mb_scanner.py`, a CLICK PLC Modbus scanner.

The development shallowly embeds the program's static address tables, its two
query functions `get_coils` and `get_registers`, and the module-level script
copy of the same logic at the bottom of the file.  The Modbus transport is
modelled as a record of response functions (one per read capability); machine
registers are natural numbers below 2^16; IEEE-754 single-precision decoding is
carried out exactly over the rationals; Python exceptions are modelled by an
`Option PyErr` component of the result.
-/

set_option maxRecDepth 100000

namespace ClickMB

/-- Python dict `type_ranges` (source lines 43-51): the inclusive
`[min, max]` instance range of every memory type. -/
def type_ranges : List (String × Nat × Nat) := [
  ("X0", 1, 36), ("X1", 1, 16), ("X2", 1, 16), ("X3", 1, 16), ("X4", 1, 16),
  ("X5", 1, 16), ("X6", 1, 16), ("X7", 1, 16), ("X8", 1, 16), ("Y0", 1, 36),
  ("Y1", 1, 16), ("Y2", 1, 16), ("Y3", 1, 16), ("Y4", 1, 16), ("Y5", 1, 16),
  ("Y6", 1, 16), ("Y7", 1, 16), ("Y8", 1, 16), ("C", 1, 2000), ("T", 1, 500),
  ("CT", 1, 250), ("SC", 1, 1000), ("DS", 1, 4500), ("DD", 1, 1000), ("DH", 1, 500),
  ("DF", 1, 500), ("XD", 0, 8), ("YD", 0, 8), ("TD", 1, 500), ("CTD", 1, 250),
  ("SD", 1, 1000), ("TXT", 1, 1000)]

/-- Python dict `coil_start_addrs` (source lines 54-60): Modbus base address
of every coil-class memory type. -/
def coil_start_addrs : List (String × Nat) := [
  ("X0", 0x0000), ("X1", 0x0020), ("X2", 0x0040), ("X3", 0x0060), ("X4", 0x0080),
  ("X5", 0x00a0), ("X6", 0x00c0), ("X7", 0x00e0), ("X8", 0x0100), ("Y0", 0x2000),
  ("Y1", 0x2020), ("Y2", 0x2040), ("Y3", 0x2060), ("Y4", 0x2080), ("Y5", 0x20a0),
  ("Y6", 0x20c0), ("Y7", 0x20e0), ("Y8", 0x2100), ("C", 0x4000), ("T", 0xB000),
  ("CT", 0xC000), ("SC", 0xF000)]

/-- Python dict `reg_start_addrs` (source lines 63-66): Modbus base address
of every register-class memory type. -/
def reg_start_addrs : List (String × Nat) := [
  ("DS", 0x0000), ("DD", 0x4000), ("DH", 0x6000), ("DF", 0x7000), ("XD", 0xE000),
  ("YD", 0xE200), ("TD", 0xB000), ("CTD", 0xC000), ("SD", 0xF000), ("TXT", 0x9000)]

/-- Python dict `reg_sizes` (source lines 69-72): registers per read for the
non-block register types (used only in the non-block branch of `get_registers`). -/
def reg_sizes : List (String × Nat) := [
  ("DS", 1), ("DD", 2), ("DH", 2), ("DF", 2), ("XD", 2), ("YD", 2), ("TD", 1),
  ("CTD", 2), ("SD", 1), ("TXT", 2)]

/-- `coil_keys = coil_start_addrs.keys()` (source line 75). -/
def coil_keys : List String := coil_start_addrs.map (·.1)

/-- `reg_keys = reg_start_addrs.keys()` (source line 77). -/
def reg_keys : List String := reg_start_addrs.map (·.1)

/-- The five types handled by the 100-register block branch of
`get_registers` (source line 108). -/
def block_types : List String := ["DS", "TD", "SD", "DH", "TXT"]

/-- Python `range(start, stop, step)` for positive `step`: the values
`start + k * step` with `start + k * step < stop`, in order. -/
def pyRange (start stop step : Nat) : List Nat :=
  (List.range ((stop - start + step - 1) / step)).map (fun k => start + k * step)

/-- The Modbus transport, modelled by its four read capabilities
(the pymodbus client collaborator).  Coil-class reads return `.bits`,
register-class reads return `.registers`. -/
structure Client where
  read_coils : Nat → Nat → List Bool
  read_discrete_inputs : Nat → Nat → List Bool
  read_holding_registers : Nat → Nat → List Nat
  read_input_registers : Nat → Nat → List Nat

/-- A decoded value as printed by the scanner.  Formatting differences that do
not change the number (decimal vs. hexadecimal vs. fixed-precision float
rendering, zero padding of labels) are kept as distinct constructors where the
source chooses a different decode path, and dropped where only the textual
rendering differs. -/
inductive PVal where
  | bit (b : Bool)
  | num (n : Nat)
  | hexnum (n : Nat)
  | flt (q : ℚ)
  deriving DecidableEq

/-- One printed output line `<symbol><index> : <value>`. -/
structure Line where
  sym : String
  idx : Nat
  val : PVal
  deriving DecidableEq

/-- A Python exception escaping the scanning code. -/
inductive PyErr where
  /-- `struct.error` from `struct.unpack` on a buffer that is not 4 bytes. -/
  | structError
  /-- `NameError` from the undefined global `query_type` inside `main`. -/
  | nameError
  /-- Modelled from the spec: the `UnknownMemoryType` failure the spec
  prescribes for symbols absent from the catalog.  The source never
  raises it; the constructor exists so that its absence can be stated. -/
  | unknownMemoryType
  deriving DecidableEq

/-- Modbus object class of one read request. -/
inductive ObjClass where
  | coil
  | discreteInput
  | holding
  | inputReg
  deriving DecidableEq

/-- One read request issued to the transport. -/
structure Req where
  cls : ObjClass
  addr : Nat
  count : Nat
  deriving DecidableEq

/-- The addresses a request touches: `addr, addr+1, ..., addr+count-1`. -/
def req_addrs (r : Req) : List Nat := (List.range r.count).map (fun j => r.addr + j)

/-- All addresses touched by a sequence of requests. -/
def plan_addrs (reqs : List Req) : List Nat := reqs.flatMap req_addrs

/-- `int.to_bytes(2, 'big')` of a 16-bit register value. -/
def bytes_be2 (v : Nat) : List Nat := [v / 256 % 256, v % 256]

/-- `int.from_bytes(a, 'big', signed=False)`. -/
def int_from_bytes_be (a : List Nat) : Nat := a.foldl (fun acc v => acc * 256 + v) 0

/-- The exact rational value of the IEEE-754 single-precision number with bit
pattern `w` (`struct.unpack('>f', ...)` on the 4 big-endian bytes of `w`).
Exponent 255 encodes infinities and NaNs, which have no rational value; the
claims under verification only exercise finite values, and both copies of the
scanner share this decode, so the choice there is immaterial. -/
def ieee754_single_of_bits (w : Nat) : ℚ :=
  let sign : Nat := w / 2 ^ 31 % 2
  let e : Nat := w / 2 ^ 23 % 2 ^ 8
  let m : Nat := w % 2 ^ 23
  let mag : ℚ :=
    if e = 0 then (m : ℚ) / 2 ^ 149
    else ((2 ^ 23 + m : Nat) : ℚ) * 2 ^ e / 2 ^ 150
  if sign = 1 then -mag else mag

/-- The `DD`/`CTD`/`XD`/`YD` decode (source lines 128-132): split every
register into two big-endian bytes and read the byte string back as one
big-endian unsigned integer. -/
def u32_decode (regs : List Nat) : Nat :=
  int_from_bytes_be (regs.flatMap bytes_be2)

/-- The `DF` decode (source lines 133-137): the same big-endian byte
concatenation, reinterpreted as an IEEE-754 single-precision float (only
defined when the buffer has exactly 4 bytes; `mw_loop` below models the
`struct.error` raised otherwise). -/
def df_decode (regs : List Nat) : ℚ :=
  ieee754_single_of_bits (int_from_bytes_be (regs.flatMap bytes_be2))

/-- `get_coils` (source lines 79-99).  The printed lines; the two formatting
branches for `X*`/`Y*` vs. the rest differ only in zero padding of the label,
so both produce the same `(symbol, index, bit)` triple here. -/
def get_coils (client : Client) (query_type : String) : List Line :=
  let start_addr := (List.lookup query_type coil_start_addrs).getD 0
  let count := ((List.lookup query_type type_ranges).getD (0, 0)).2
  if query_type = "C" then
    let rfull := client.read_coils start_addr 1000 ++ client.read_coils 1000 1000
    (List.range rfull.length).map (fun e => ⟨query_type, e + 1, .bit (rfull.getD e false)⟩)
  else
    let r := if query_type.front = 'X' then client.read_discrete_inputs start_addr count
             else client.read_coils start_addr count
    (pyRange 0 count 1).map (fun b => ⟨query_type, b, .bit (r.getD b false)⟩)

/-- The read requests `get_coils` issues (extracted from the same lines:
for `C`, two hard-coded 1000-coil reads; otherwise one read of `count`
discrete inputs for `X*` symbols and of `count` coils for all others). -/
def coil_plan (query_type : String) : List Req :=
  let start_addr := (List.lookup query_type coil_start_addrs).getD 0
  let count := ((List.lookup query_type type_ranges).getD (0, 0)).2
  if query_type = "C" then
    [⟨.coil, start_addr, 1000⟩, ⟨.coil, 1000, 1000⟩]
  else if query_type.front = 'X' then
    [⟨.discreteInput, start_addr, count⟩]
  else
    [⟨.coil, start_addr, count⟩]

/-- The per-register emission of the block branch (source lines 113-119):
each returned register is printed under the running `name_cnt` label,
decimally for `DS`/`TD`/`SD` and hexadecimally otherwise, and `name_cnt`
advances once per returned register. -/
def sw_emit (query_type : String) : List Nat → Nat → List Line
  | [], _ => []
  | br :: brs, name_cnt =>
    (if query_type = "DS" ∨ query_type = "TD" ∨ query_type = "SD" then
      Line.mk query_type name_cnt (.num br)
     else
      Line.mk query_type name_cnt (.hexnum br)) :: sw_emit query_type brs (name_cnt + 1)

/-- The `while curr_block <= count` loop of the block branch (source lines
110-120), iterated over the visited block offsets: each iteration reads 100
holding registers at `start_addr + curr_block` and prints what came back. -/
def sw_loop (client : Client) (query_type : String) (start_addr : Nat) :
    List Nat → Nat → List Line
  | [], _ => []
  | curr_block :: rest, name_cnt =>
    let r := client.read_holding_registers (start_addr + curr_block) 100
    sw_emit query_type r name_cnt ++
      sw_loop client query_type start_addr rest (name_cnt + r.length)

/-- The `for b in range(...)` loop of the non-block branch (source lines
122-138), iterated over the offsets `b`: each iteration reads
`reg_sizes[query_type]` registers at `start_addr + b` (input registers for
`XD`, holding registers otherwise); a nonempty result is decoded by
`u32_decode` for `DD`/`CTD`/`XD`/`YD` and by `df_decode` for `DF`, where
`struct.unpack('>f', ...)` raises `struct.error` unless the buffer is exactly
4 bytes; `name_cnt` advances once per iteration. -/
def mw_loop (client : Client) (query_type : String) (start_addr size : Nat) :
    List Nat → Nat → List Line × Option PyErr
  | [], _ => ([], none)
  | b :: bs, name_cnt =>
    let r := if query_type = "XD" then client.read_input_registers (start_addr + b) size
             else client.read_holding_registers (start_addr + b) size
    if r.isEmpty then
      mw_loop client query_type start_addr size bs (name_cnt + 1)
    else
      let dd : List Line :=
        if query_type = "DD" ∨ query_type = "CTD" ∨ query_type = "XD" ∨ query_type = "YD" then
          [⟨query_type, name_cnt, .num (u32_decode r)⟩]
        else []
      if query_type = "DF" then
        if (r.flatMap bytes_be2).length = 4 then
          let rest := mw_loop client query_type start_addr size bs (name_cnt + 1)
          (dd ++ ⟨query_type, name_cnt, .flt (df_decode r)⟩ :: rest.1, rest.2)
        else
          (dd, some .structError)
      else
        let rest := mw_loop client query_type start_addr size bs (name_cnt + 1)
        (dd ++ rest.1, rest.2)

/-- `get_registers` (source lines 102-138): the printed lines and the escaping
exception, if any.  The block branch visits `curr_block = 0, 100, ...` while
`curr_block <= count`, i.e. exactly `pyRange 0 (count+1) 100`; the non-block
branch iterates `b` over `range(type_ranges[qt][0], count + 1, reg_sizes[qt])`. -/
def get_registers (client : Client) (query_type : String) : List Line × Option PyErr :=
  let start_addr := (List.lookup query_type reg_start_addrs).getD 0
  let count := ((List.lookup query_type type_ranges).getD (0, 0)).2
  let name_cnt := ((List.lookup query_type type_ranges).getD (0, 0)).1
  if query_type ∈ block_types then
    (sw_loop client query_type start_addr (pyRange 0 (count + 1) 100) name_cnt, none)
  else
    let size := (List.lookup query_type reg_sizes).getD 0
    mw_loop client query_type start_addr size
      (pyRange ((List.lookup query_type type_ranges).getD (0, 0)).1 (count + 1) size) name_cnt

/-- The read requests `get_registers` issues (extracted from the same loops;
the loop bounds do not depend on the transport's responses). -/
def reg_plan (query_type : String) : List Req :=
  let start_addr := (List.lookup query_type reg_start_addrs).getD 0
  let count := ((List.lookup query_type type_ranges).getD (0, 0)).2
  if query_type ∈ block_types then
    (pyRange 0 (count + 1) 100).map (fun b => ⟨.holding, start_addr + b, 100⟩)
  else
    let size := (List.lookup query_type reg_sizes).getD 0
    (pyRange ((List.lookup query_type type_ranges).getD (0, 0)).1 (count + 1) size).map
      (fun b => if query_type = "XD" then ⟨.inputReg, start_addr + b, size⟩
                else ⟨.holding, start_addr + b, size⟩)

/-! ### The module-level script copy (source lines 221-294)

The bottom of the file repeats the query logic outside any function.  It is
embedded separately so that the two copies can be compared. -/

/-- The script's coil branch (source lines 223-242).  It differs from
`get_coils` in the non-`C` loop: `for b in range(1, count)` instead of
`for b in range(count)`. -/
def script_coils (client : Client) (query_type : String) : List Line :=
  let start_addr := (List.lookup query_type coil_start_addrs).getD 0
  let count := ((List.lookup query_type type_ranges).getD (0, 0)).2
  if query_type = "C" then
    let rfull := client.read_coils start_addr 1000 ++ client.read_coils 1000 1000
    (List.range rfull.length).map (fun e => ⟨query_type, e + 1, .bit (rfull.getD e false)⟩)
  else
    let r := if query_type.front = 'X' then client.read_discrete_inputs start_addr count
             else client.read_coils start_addr count
    (pyRange 1 count 1).map (fun b => ⟨query_type, b, .bit (r.getD b false)⟩)

/-- The script's per-register emission (source lines 256-263), identical in
content to `sw_emit`. -/
def script_sw_emit (query_type : String) : List Nat → Nat → List Line
  | [], _ => []
  | br :: brs, name_cnt =>
    (if query_type = "DS" ∨ query_type = "TD" ∨ query_type = "SD" then
      Line.mk query_type name_cnt (.num br)
     else
      Line.mk query_type name_cnt (.hexnum br)) :: script_sw_emit query_type brs (name_cnt + 1)

/-- The script's block loop (source lines 251-264), identical in content to
`sw_loop` (the read count is the literal `100` there). -/
def script_sw_loop (client : Client) (query_type : String) (start_addr : Nat) :
    List Nat → Nat → List Line
  | [], _ => []
  | curr_block :: rest, name_cnt =>
    let r := client.read_holding_registers (start_addr + curr_block) 100
    script_sw_emit query_type r name_cnt ++
      script_sw_loop client query_type start_addr rest (name_cnt + r.length)

/-- The script's non-block loop (source lines 267-294); the explicit
byte-appending `for` loops build the same byte list as the comprehension in
`get_registers`, and `'%04f'` versus `f'{fn:.4f}'` differ only in rendering. -/
def script_mw_loop (client : Client) (query_type : String) (start_addr size : Nat) :
    List Nat → Nat → List Line × Option PyErr
  | [], _ => ([], none)
  | b :: bs, name_cnt =>
    let r := if query_type = "XD" then client.read_input_registers (start_addr + b) size
             else client.read_holding_registers (start_addr + b) size
    if r.isEmpty then
      script_mw_loop client query_type start_addr size bs (name_cnt + 1)
    else
      let dd : List Line :=
        if query_type = "DD" ∨ query_type = "CTD" ∨ query_type = "XD" ∨ query_type = "YD" then
          [⟨query_type, name_cnt, .num (u32_decode r)⟩]
        else []
      if query_type = "DF" then
        if (r.flatMap bytes_be2).length = 4 then
          let rest := script_mw_loop client query_type start_addr size bs (name_cnt + 1)
          (dd ++ ⟨query_type, name_cnt, .flt (df_decode r)⟩ :: rest.1, rest.2)
        else
          (dd, some .structError)
      else
        let rest := script_mw_loop client query_type start_addr size bs (name_cnt + 1)
        (dd ++ rest.1, rest.2)

/-- The script's register branch (source lines 244-294). -/
def script_registers (client : Client) (query_type : String) : List Line × Option PyErr :=
  let start_addr := (List.lookup query_type reg_start_addrs).getD 0
  let count := ((List.lookup query_type type_ranges).getD (0, 0)).2
  let name_cnt := ((List.lookup query_type type_ranges).getD (0, 0)).1
  if query_type ∈ block_types then
    (script_sw_loop client query_type start_addr (pyRange 0 (count + 1) 100) name_cnt, none)
  else
    let size := (List.lookup query_type reg_sizes).getD 0
    script_mw_loop client query_type start_addr size
      (pyRange ((List.lookup query_type type_ranges).getD (0, 0)).1 (count + 1) size) name_cnt

/-- The dispatch of `main` (source lines 178-197): the reads it performs and
the exception it catches.  Both membership branches call
`get_coils(client, query_type)` / `get_registers(client, query_type)` with the
bare global name `query_type`, which is not yet bound while `main` runs (the
module-level assignment at line 215 only executes after `main()` returns), so
each raises `NameError` before any coil, discrete-input or register read; a
symbol in neither key set reaches neither call and `main` ends silently.
The `try` block reports the caught exception and returns. -/
def main_run (_client : Client) (query_type_arg : String) : List Req × Option PyErr :=
  if query_type_arg ∈ coil_keys then ([], some .nameError)
  else if query_type_arg ∈ reg_keys then ([], some .nameError)
  else ([], none)

/-! ### Derived catalog views used to state the claims -/

/-- The catalogued minimum instance index of a memory type. -/
def inst_min (qt : String) : Nat := ((List.lookup qt type_ranges).getD (0, 0)).1

/-- The catalogued maximum instance index of a memory type. -/
def inst_max (qt : String) : Nat := ((List.lookup qt type_ranges).getD (0, 0)).2

/-- The catalogued Modbus base address of a memory type. -/
def base_addr (qt : String) : Nat :=
  if qt ∈ coil_keys then (List.lookup qt coil_start_addrs).getD 0
  else (List.lookup qt reg_start_addrs).getD 0

/-- Addressable words per instance: 1 for every coil-class type and for the
block-read register types (whose decode consumes one register per instance,
source lines 113-119); `reg_sizes[qt]` for the remaining register types. -/
def words_per_value (qt : String) : Nat :=
  if qt ∈ coil_keys then 1
  else if qt ∈ block_types then 1
  else (List.lookup qt reg_sizes).getD 1

/-- The address of instance `i` of type `qt` under the spec's resolver
formula: `baseAddress + (instanceIndex - indexOrigin) * wordsPerValue`. -/
def inst_addr (qt : String) (i : Nat) : Nat :=
  base_addr qt + (i - inst_min qt) * words_per_value qt

/-- The full request plan of a query: the coil plan for coil-class symbols,
the register plan for register-class symbols, nothing otherwise. -/
def plan_of (qt : String) : List Req :=
  if qt ∈ coil_keys then coil_plan qt
  else if qt ∈ reg_keys then reg_plan qt
  else []

/-! ### Concrete transports used as test inputs -/

/-- A transport returning all-false bits and no registers. -/
def trivClient : Client :=
  { read_coils := fun _ n => List.replicate n false,
    read_discrete_inputs := fun _ n => List.replicate n false,
    read_holding_registers := fun _ _ => [],
    read_input_registers := fun _ _ => [] }

/-- A transport that answers every holding-register read with the single
register `0x4049` — one register fewer than a two-register `DF` request. -/
def oneRegClient : Client :=
  { read_coils := fun _ _ => [],
    read_discrete_inputs := fun _ _ => [],
    read_holding_registers := fun _ _ => [0x4049],
    read_input_registers := fun _ _ => [] }

/-- A transport backed by a memory image `mem` based at address `a`: a
holding-register read returns the requested slice of the image. -/
def slice_client (a : Nat) (mem : List Nat) : Client :=
  { read_coils := fun _ _ => [],
    read_discrete_inputs := fun _ _ => [],
    read_holding_registers := fun addr count => (mem.drop (addr - a)).take count,
    read_input_registers := fun _ _ => [] }

/-- Like `slice_client 0 mem`, except that the read at address 0 (the first
`DS` block) comes back empty. -/
def first_blank_client (mem : List Nat) : Client :=
  { read_coils := fun _ _ => [],
    read_discrete_inputs := fun _ _ => [],
    read_holding_registers := fun addr count =>
      if addr = 0 then [] else (mem.drop addr).take count,
    read_input_registers := fun _ _ => [] }

/-- A transport whose holding-register reads return the single register 7,
regardless of the address. -/
def sevenClient : Client :=
  { read_coils := fun _ _ => [],
    read_discrete_inputs := fun _ _ => [],
    read_holding_registers := fun _ _ => [7],
    read_input_registers := fun _ _ => [] }

/-! ### Helper lemmas -/

lemma count_base_range (a N k : Nat) (hk : k < N) :
    ((List.range N).map (fun j => a + j)).count (a + k) = 1 := by
  have hinj : Function.Injective (fun j => a + j) := fun x y hxy => by
    simpa using hxy
  calc ((List.range N).map (fun j => a + j)).count (a + k)
      = (List.range N).count k := List.count_map_of_injective _ _ hinj k
    _ = 1 := List.count_eq_one_of_mem (List.nodup_range N) (List.mem_range.mpr hk)

/-- Packaged coverage argument: when the plan's addresses are exactly
`a, a+1, ..., a+N-1` and the instance address sits in that window, it is
covered exactly once. -/
lemma coverage_case {qt : String} (a N m : Nat) (i : Nat)
    (hplan : plan_addrs (plan_of qt) = (List.range N).map (fun j => a + j))
    (haddr : inst_addr qt i = a + (i - m))
    (hlt : i - m < N) :
    (plan_addrs (plan_of qt)).count (inst_addr qt i) = 1 := by
  rw [hplan, haddr]
  exact count_base_range a N _ hlt

lemma sw_emit_append (qt : String) :
    ∀ (xs ys : List Nat) (n : Nat),
      sw_emit qt (xs ++ ys) n = sw_emit qt xs n ++ sw_emit qt ys (n + xs.length)
  | [], ys, n => by simp [sw_emit]
  | x :: xs, ys, n => by
    simp only [List.cons_append, sw_emit, List.length_cons, List.append_eq]
    rw [sw_emit_append qt xs ys (n + 1)]
    have h : n + 1 + xs.length = n + (xs.length + 1) := by omega
    rw [h]

lemma sw_loop_eq_emit (c : Client) (qt : String) (s : Nat) :
    ∀ (bs : List Nat) (n : Nat),
      sw_loop c qt s bs n
        = sw_emit qt ((bs.map (fun b => c.read_holding_registers (s + b) 100)).flatten) n
  | [], _ => rfl
  | b :: bs, n => by
    simp only [sw_loop, List.map_cons, List.flatten_cons]
    rw [sw_emit_append, sw_loop_eq_emit c qt s bs]

lemma flatten_slices (mem : List Nat) :
    ∀ n : Nat,
      ((List.range n).map (fun k => (mem.drop (k * 100)).take 100)).flatten
        = mem.take (n * 100)
  | 0 => by simp
  | n + 1 => by
    rw [List.range_succ, List.map_append, List.flatten_append, flatten_slices mem n]
    simp only [List.map_cons, List.map_nil, List.flatten_cons, List.flatten_nil,
      List.append_nil]
    rw [← List.take_add]
    congr 1
    omega

lemma sw_emit_get? (qt : String) :
    ∀ (xs : List Nat) (n0 n : Nat) (line : Line),
      (sw_emit qt xs n0).get? n = some line → line.idx = n0 + n
  | [], n0, n, line => by simp [sw_emit]
  | x :: xs, n0, 0, line => by
    simp only [sw_emit, List.get?]
    intro h
    have hline := Option.some.inj h
    subst hline
    split <;> simp
  | x :: xs, n0, n + 1, line => by
    simp only [sw_emit, List.get?]
    intro h
    have := sw_emit_get? qt xs (n0 + 1) n line h
    omega

lemma script_sw_emit_eq (qt : String) :
    ∀ (xs : List Nat) (n : Nat), script_sw_emit qt xs n = sw_emit qt xs n
  | [], _ => rfl
  | x :: xs, n => by
    simp only [script_sw_emit, sw_emit]
    rw [script_sw_emit_eq qt xs (n + 1)]

lemma script_sw_loop_eq (c : Client) (qt : String) (s : Nat) :
    ∀ (bs : List Nat) (n : Nat), script_sw_loop c qt s bs n = sw_loop c qt s bs n
  | [], _ => rfl
  | b :: bs, n => by
    simp only [script_sw_loop, sw_loop, script_sw_emit_eq]
    rw [script_sw_loop_eq c qt s bs]

lemma script_mw_loop_eq (c : Client) (qt : String) (s z : Nat) :
    ∀ (bs : List Nat) (n : Nat), script_mw_loop c qt s z bs n = mw_loop c qt s z bs n
  | [], _ => rfl
  | b :: bs, n => by
    simp only [script_mw_loop, mw_loop]
    rw [script_mw_loop_eq c qt s z bs]

lemma pyRange_zero_drop {α : Type} (n : Nat) (f : Nat → α) (hn : 1 ≤ n) :
    ((pyRange 0 n 1).map f).drop 1 = (pyRange 1 n 1).map f := by
  obtain ⟨m, rfl⟩ : ∃ m, n = m + 1 := ⟨n - 1, by omega⟩
  simp only [pyRange, Nat.sub_zero, Nat.add_sub_cancel, Nat.div_one, Nat.add_sub_cancel_left]
  rw [List.range_succ_eq_map]
  simp only [List.map_cons, List.map_map, List.drop_succ_cons, List.drop_zero]
  apply List.map_congr_left
  intro k _
  simp only [Function.comp_apply]
  congr 1
  omega

lemma script_coils_drop (c : Client) (qt : String) (hC : qt ≠ "C")
    (h1 : 1 ≤ ((List.lookup qt type_ranges).getD (0, 0)).2) :
    script_coils c qt = (get_coils c qt).drop 1 := by
  unfold script_coils get_coils
  simp only [if_neg hC]
  exact (pyRange_zero_drop _ _ h1).symm

/-! ### Claim theorems -/

/-- The labels of the `C` branch of `get_coils`: position `e` of the
concatenated bit list is printed as instance `e + 1`. -/
lemma get_coils_c_idx (c : Client) :
    (get_coils c "C").map Line.idx
      = (List.range (c.read_coils 16384 1000 ++ c.read_coils 1000 1000).length).map
          (fun e => e + 1) := by
  show ((List.range _).map _).map Line.idx = _
  rw [List.map_map]
  rfl

/-- C2: evaluating the code at the failing input `C`.  The plan for the
control-relay type does consist of two 1000-coil requests, the first at the
base address 0x4000 = 16384, and the concatenated decode numbers the bits
C1..C2000 without a gap; but the second request is issued at address 1000,
which is not 0x4000 + 1000 = 17384, the address directly after the first
block. -/
theorem C2_c_plan_eval :
    coil_plan "C" = [⟨.coil, 16384, 1000⟩, ⟨.coil, 1000, 1000⟩] ∧
    (16384 + 1000 : Nat) = 17384 ∧ (1000 : Nat) ≠ 17384 ∧
    (get_coils trivClient "C").map Line.idx = (List.range 2000).map (fun e => e + 1) := by
  refine ⟨by decide, by decide, by decide, ?_⟩
  rw [get_coils_c_idx trivClient]
  have hlen : (trivClient.read_coils 16384 1000 ++ trivClient.read_coils 1000 1000).length
      = 2000 := by
    simp [trivClient]
  rw [hlen]

/-- C3: evaluating the code at the failing input `DF`, instance 1.  The
resolver address of `DF1` is the base address 0x7000 = 28672, but the first
read issued for `DF` starts at 0x7000 + 1, and no `DF` read ever starts at
the base address: the offsets iterate from `instanceRange.min`, not from 0. -/
theorem C3_df_first_read :
    (reg_plan "DF").head? = some ⟨.holding, 28673, 2⟩ ∧
    inst_addr "DF" 1 = 28672 ∧ (28673 : Nat) ≠ 28672 ∧
    (reg_plan "DF").all (fun r => r.addr != 28672) = true := by
  refine ⟨by decide, by decide, by decide, by decide⟩

/-- C5 (amended): a query for a symbol in neither key table performs no
coil, discrete-input or register read and raises nothing at all — in
particular it does not fail with `UnknownMemoryType`; it completes silently. -/
theorem C5_unknown_silent (c : Client) (qt : String)
    (h1 : qt ∉ coil_keys) (h2 : qt ∉ reg_keys) :
    main_run c qt = ([], none) := by
  simp [main_run, h1, h2]

/-- C5 witness: the concrete unknown symbol `ZZ`. -/
theorem C5_unknown_silent_witness : main_run trivClient "ZZ" = ([], none) :=
  C5_unknown_silent trivClient "ZZ" (by decide) (by decide)

/-- C5 counterexample: `main` run on `ZZ` produces no error at all, so in
particular it does not fail with `UnknownMemoryType` as the claim states. -/
theorem C5_unknown_silent_cex :
    (main_run trivClient "ZZ").2 = none ∧
    (main_run trivClient "ZZ").2 ≠ some PyErr.unknownMemoryType := by
  refine ⟨by decide, by decide⟩

/-- C7: the `unsigned32-from-2x16` decode concatenates the two registers
big-endian — the first register supplies the high-order 16 bits — and on
`[0x0001, 0x0000]` yields 65536. -/
theorem C7_u32_big_endian :
    u32_decode [1, 0] = 65536 ∧
    ∀ r1 r2 : Nat, r1 < 65536 → r2 < 65536 →
      u32_decode [r1, r2] = r1 * 65536 + r2 := by
  refine ⟨by decide, ?_⟩
  intro r1 r2 h1 h2
  show ((((0 * 256 + r1 / 256 % 256) * 256 + r1 % 256) * 256 + r2 / 256 % 256) * 256
      + r2 % 256) = r1 * 65536 + r2
  omega

/-- C7 witness: the general big-endian law applied at registers 2 and 3. -/
theorem C7_u32_big_endian_witness : u32_decode [2, 3] = 2 * 65536 + 3 :=
  C7_u32_big_endian.2 2 3 (by decide) (by decide)

/-- C8: the `ieee754-float-from-2x16` decode of `[0x4049, 0x0fdb]` — the
4-byte big-endian word 0x40490FDB read as an IEEE-754 single — is within
1e-4 of 3.14159. -/
theorem C8_df_pi : |df_decode [0x4049, 0x0fdb] - 3.14159| < 1 / 10000 := by
  have hw : df_decode [0x4049, 0x0fdb] = ieee754_single_of_bits 1078530011 := rfl
  have hv : ieee754_single_of_bits 1078530011 = 13176795 / 4194304 := by
    unfold ieee754_single_of_bits
    norm_num
  rw [hw, hv, abs_lt]
  constructor <;> norm_num

/-- C4 (amended): when the first `DF` read (two registers at 0x7000 + 1)
comes back with a single register, the decoder decodes nothing from the
truncated pair and emits zero values for that request — but it does so by
raising `struct.error` from `struct.unpack('>f', ...)`, aborting the whole
query; no `PartialResult` is signalled. -/
theorem C4_df_short_read (c : Client)
    (h : (c.read_holding_registers 28673 2).length = 1) :
    get_registers c "DF" = ([], some .structError) := by
  obtain ⟨x, hx⟩ := List.length_eq_one.mp h
  obtain ⟨bs, hbs⟩ : ∃ bs, pyRange 1 501 2 = 1 :: bs :=
    ⟨(pyRange 1 501 2).tail, by decide⟩
  show mw_loop c "DF" 28672 2 (pyRange 1 501 2) 1 = ([], some .structError)
  rw [hbs]
  show mw_loop c "DF" 28672 2 (1 :: bs) 1 = ([], some .structError)
  have h28 : (28672 : Nat) + 1 = 28673 := by norm_num
  simp [mw_loop, h28, hx, bytes_be2, List.isEmpty]

/-- C4 witness: a transport that answers every holding-register read with the
single register 0x4049. -/
theorem C4_df_short_read_witness :
    get_registers oneRegClient "DF" = ([], some .structError) :=
  C4_df_short_read oneRegClient (by decide)

/-- C4 counterexample: on that same transport the claim as stated is false —
the run raises a `struct.error` exception rather than signalling
`PartialResult` without raising. -/
theorem C4_df_short_read_cex :
    (get_registers oneRegClient "DF").2 = some PyErr.structError ∧
    (get_registers oneRegClient "DF").2 ≠ none := by
  refine ⟨by decide, by decide⟩

/-- C6 counterexample: the `DS` planner emits 46 requests, not 45, and the
last one starts exactly at `baseAddress + instanceRange.max` = 0 + 4500. -/
theorem C6_ds_chunking_cex :
    (reg_plan "DS").length = 46 ∧ (reg_plan "DS").length ≠ 45 ∧
    Req.mk .holding 4500 100 ∈ reg_plan "DS" := by
  refine ⟨by decide, by decide, by decide⟩

/-- C6 (amended): the `DS` planner walks from the base address in blocks of
100 while the block start is at most `instanceRange.max`, so it emits 46
consecutive 100-register requests (the last starting exactly at
`baseAddress + 4500`); and against a transport serving the catalogued
4500-register image, the chunked reads decode to exactly the same labelled
sequence as a single unsplit read of the whole range. -/
theorem C6_ds_chunking :
    reg_plan "DS" = (List.range 46).map (fun k => ⟨.holding, k * 100, 100⟩) ∧
    ∀ mem : List Nat, mem.length = 4500 →
      (get_registers (slice_client 0 mem) "DS").1 = sw_emit "DS" mem 1 := by
  constructor
  · decide
  · intro mem hmem
    show sw_loop (slice_client 0 mem) "DS" 0 (pyRange 0 4501 100) 1 = sw_emit "DS" mem 1
    rw [show pyRange 0 4501 100 = (List.range 46).map (fun k => k * 100) from by decide]
    rw [sw_loop_eq_emit, List.map_map]
    have hresp : ((fun b => (slice_client 0 mem).read_holding_registers (0 + b) 100) ∘
        (fun k => k * 100)) = fun k => (mem.drop (k * 100)).take 100 := by
      funext k
      simp [slice_client]
    rw [hresp, flatten_slices]
    have hle : mem.length ≤ 46 * 100 := by rw [hmem]; norm_num
    rw [List.take_of_length_le hle]

/-- C6 witness: the chunked and unsplit decodes agree on the all-zero
4500-register image. -/
theorem C6_ds_chunking_witness :
    (get_registers (slice_client 0 (List.replicate 4500 0)) "DS").1
      = sw_emit "DS" (List.replicate 4500 0) 1 :=
  C6_ds_chunking.2 (List.replicate 4500 0) (List.length_replicate 4500 0)

/-- C10: for the block-read types, the instance label of the n-th output line
is `instanceRange.min + n`, i.e. the minimum plus the number of registers
returned by all earlier reads — never a function of the register's address.
Consequently (second conjunct, shown on `DS` with a 4600-register image whose
first block read comes back empty) the remaining values are all emitted under
labels that start back at 1 even though they came from addresses 100 onward:
the output equals the label-from-1 decode of the image with its first 100
registers missing. -/
theorem C10_block_labels :
    (∀ qt, qt ∈ block_types → ∀ (c : Client) (n : Nat) (line : Line),
        ((get_registers c qt).1).get? n = some line → line.idx = inst_min qt + n) ∧
    (∀ mem : List Nat, mem.length = 4600 →
        (get_registers (first_blank_client mem) "DS").1
          = sw_emit "DS" (mem.drop 100) 1) := by
  constructor
  · intro qt hqt c n line h
    simp only [get_registers, if_pos hqt] at h
    rw [sw_loop_eq_emit] at h
    exact sw_emit_get? qt _ _ n line h
  · intro mem hmem
    show sw_loop (first_blank_client mem) "DS" 0 (pyRange 0 4501 100) 1
        = sw_emit "DS" (mem.drop 100) 1
    rw [show pyRange 0 4501 100 = (List.range 46).map (fun k => k * 100) from by decide]
    rw [sw_loop_eq_emit, List.map_map]
    have hresp : ((fun b => (first_blank_client mem).read_holding_registers (0 + b) 100) ∘
        (fun k => k * 100))
        = fun k => if k * 100 = 0 then [] else (mem.drop (k * 100)).take 100 := by
      funext k
      simp [first_blank_client]
    rw [hresp, List.range_succ_eq_map]
    simp only [List.map_cons, List.flatten_cons, List.map_map, Nat.zero_mul,
      reduceIte, List.nil_append]
    have hc : ∀ k ∈ List.range 45,
        ((fun k => if k * 100 = 0 then [] else (mem.drop (k * 100)).take 100) ∘ Nat.succ) k
          = ((mem.drop 100).drop (k * 100)).take 100 := by
      intro k _
      simp only [Function.comp_apply, List.drop_drop]
      rw [if_neg (by omega)]
      congr 2
      omega
    rw [List.map_congr_left hc, flatten_slices]
    have hle : (mem.drop 100).length ≤ 45 * 100 := by
      rw [List.length_drop, hmem]
    rw [List.take_of_length_le hle]

/-- C10 witness: the label law applied at position 0 of a `DS` run, and the
shifted-label decode on a concrete 4600-register image. -/
theorem C10_block_labels_witness :
    (Line.mk "DS" 1 (PVal.num 7)).idx = inst_min "DS" + 0 ∧
    (get_registers (first_blank_client (List.replicate 4600 5)) "DS").1
      = sw_emit "DS" ((List.replicate 4600 5).drop 100) 1 :=
  ⟨C10_block_labels.1 "DS" (by decide) sevenClient 0 _ (by decide),
   C10_block_labels.2 (List.replicate 4600 5) (List.length_replicate 4600 5)⟩

/-- C9 counterexample: on an all-false transport, querying `T` through
`get_coils` yields 500 lines labelled 0..499, while the script's copy yields
only 499 lines labelled 1..499 — the two copies disagree. -/
theorem C9_script_cex : get_coils trivClient "T" ≠ script_coils trivClient "T" := by
  intro h
  have h1 : (get_coils trivClient "T").length = 500 := by
    simp [get_coils, pyRange, trivClient]
    decide
  have h2 : (script_coils trivClient "T").length = 499 := by
    simp [script_coils, pyRange, trivClient]
    decide
  rw [h] at h1
  omega

/-- C9 (amended): the two copies agree on every register-class symbol and on
the `C` coil type for every transport response; but on every other coil-class
symbol the script omits the line for bit index 0, its output being exactly the
function's output with the first line dropped. -/
theorem C9_function_vs_script :
    (∀ (c : Client) (qt : String), script_registers c qt = get_registers c qt) ∧
    (∀ c : Client, script_coils c "C" = get_coils c "C") ∧
    (∀ (c : Client) (qt : String), qt ∈ coil_keys → qt ≠ "C" →
        script_coils c qt = (get_coils c qt).drop 1) := by
  refine ⟨?_, ?_, ?_⟩
  · intro c qt
    unfold script_registers get_registers
    simp only [script_sw_loop_eq, script_mw_loop_eq]
  · intro c
    rfl
  · intro c qt hmem hC
    apply script_coils_drop c qt hC
    fin_cases hmem <;> decide

/-- C9 witness: the drop-one relation at the concrete coil symbol `X1`. -/
theorem C9_function_vs_script_witness :
    script_coils trivClient "X1" = (get_coils trivClient "X1").drop 1 :=
  C9_function_vs_script.2.2 trivClient "X1" (by decide) (by decide)

/-- Helper: the addresses of a single-request plan. -/
lemma plan_addrs_singleton (r : Req) : plan_addrs [r] = req_addrs r := by
  simp [plan_addrs]

/-- Helper: the addresses of a block plan of `N` consecutive 100-register
requests based at `a` are exactly `a, a+1, ..., a + N*100 - 1`. -/
lemma block_plan_addrs (a : Nat) (N : Nat) :
    plan_addrs (((List.range N).map (fun k => k * 100)).map
        (fun b => ⟨ObjClass.holding, a + b, 100⟩))
      = (List.range (N * 100)).map (fun j => a + j) := by
  induction N with
  | zero => rfl
  | succ n ih =>
    rw [List.range_succ, List.map_append, List.map_append]
    unfold plan_addrs at ih ⊢
    rw [List.flatMap_append, ih]
    have h1 : (n + 1) * 100 = n * 100 + 100 := by ring
    rw [h1, List.range_add, List.map_append]
    congr 1

/-- The memory types for which the plan covers each catalogued instance
exactly once: every coil-class type except `C`, and the block-read register
types. -/
def C1_good : List String :=
  ["X0", "X1", "X2", "X3", "X4", "X5", "X6", "X7", "X8",
   "Y0", "Y1", "Y2", "Y3", "Y4", "Y5", "Y6", "Y7", "Y8",
   "T", "CT", "SC", "DS", "TD", "SD", "DH", "TXT"]

/-- C1 (amended): for every coil-class type other than `C` and every
block-read register type, the planned requests address each instance of the
catalogued range exactly once (at its resolver address
`baseAddress + (i - indexOrigin) * wordsPerValue`), with no gap and no
overlap.  For `C` and the two-word register types this fails (see the
counterexample). -/
theorem C1_coverage (qt : String) (hq : qt ∈ C1_good) (i : Nat)
    (h1 : inst_min qt ≤ i) (h2 : i ≤ inst_max qt) :
    (plan_addrs (plan_of qt)).count (inst_addr qt i) = 1 := by
  fin_cases hq
  · refine coverage_case 0 36 1 i ?_ ?_ ?_
    · rw [show plan_of "X0" = [⟨ObjClass.discreteInput, 0, 36⟩] from by decide,
          plan_addrs_singleton]
      rfl
    · show 0 + (i - 1) * 1 = 0 + (i - 1)
      omega
    · have h2' : i ≤ 36 := h2
      omega
  · refine coverage_case 32 16 1 i ?_ ?_ ?_
    · rw [show plan_of "X1" = [⟨ObjClass.discreteInput, 32, 16⟩] from by decide,
          plan_addrs_singleton]
      rfl
    · show 32 + (i - 1) * 1 = 32 + (i - 1)
      omega
    · have h2' : i ≤ 16 := h2
      omega
  · refine coverage_case 64 16 1 i ?_ ?_ ?_
    · rw [show plan_of "X2" = [⟨ObjClass.discreteInput, 64, 16⟩] from by decide,
          plan_addrs_singleton]
      rfl
    · show 64 + (i - 1) * 1 = 64 + (i - 1)
      omega
    · have h2' : i ≤ 16 := h2
      omega
  · refine coverage_case 96 16 1 i ?_ ?_ ?_
    · rw [show plan_of "X3" = [⟨ObjClass.discreteInput, 96, 16⟩] from by decide,
          plan_addrs_singleton]
      rfl
    · show 96 + (i - 1) * 1 = 96 + (i - 1)
      omega
    · have h2' : i ≤ 16 := h2
      omega
  · refine coverage_case 128 16 1 i ?_ ?_ ?_
    · rw [show plan_of "X4" = [⟨ObjClass.discreteInput, 128, 16⟩] from by decide,
          plan_addrs_singleton]
      rfl
    · show 128 + (i - 1) * 1 = 128 + (i - 1)
      omega
    · have h2' : i ≤ 16 := h2
      omega
  · refine coverage_case 160 16 1 i ?_ ?_ ?_
    · rw [show plan_of "X5" = [⟨ObjClass.discreteInput, 160, 16⟩] from by decide,
          plan_addrs_singleton]
      rfl
    · show 160 + (i - 1) * 1 = 160 + (i - 1)
      omega
    · have h2' : i ≤ 16 := h2
      omega
  · refine coverage_case 192 16 1 i ?_ ?_ ?_
    · rw [show plan_of "X6" = [⟨ObjClass.discreteInput, 192, 16⟩] from by decide,
          plan_addrs_singleton]
      rfl
    · show 192 + (i - 1) * 1 = 192 + (i - 1)
      omega
    · have h2' : i ≤ 16 := h2
      omega
  · refine coverage_case 224 16 1 i ?_ ?_ ?_
    · rw [show plan_of "X7" = [⟨ObjClass.discreteInput, 224, 16⟩] from by decide,
          plan_addrs_singleton]
      rfl
    · show 224 + (i - 1) * 1 = 224 + (i - 1)
      omega
    · have h2' : i ≤ 16 := h2
      omega
  · refine coverage_case 256 16 1 i ?_ ?_ ?_
    · rw [show plan_of "X8" = [⟨ObjClass.discreteInput, 256, 16⟩] from by decide,
          plan_addrs_singleton]
      rfl
    · show 256 + (i - 1) * 1 = 256 + (i - 1)
      omega
    · have h2' : i ≤ 16 := h2
      omega
  · refine coverage_case 8192 36 1 i ?_ ?_ ?_
    · rw [show plan_of "Y0" = [⟨ObjClass.coil, 8192, 36⟩] from by decide,
          plan_addrs_singleton]
      rfl
    · show 8192 + (i - 1) * 1 = 8192 + (i - 1)
      omega
    · have h2' : i ≤ 36 := h2
      omega
  · refine coverage_case 8224 16 1 i ?_ ?_ ?_
    · rw [show plan_of "Y1" = [⟨ObjClass.coil, 8224, 16⟩] from by decide,
          plan_addrs_singleton]
      rfl
    · show 8224 + (i - 1) * 1 = 8224 + (i - 1)
      omega
    · have h2' : i ≤ 16 := h2
      omega
  · refine coverage_case 8256 16 1 i ?_ ?_ ?_
    · rw [show plan_of "Y2" = [⟨ObjClass.coil, 8256, 16⟩] from by decide,
          plan_addrs_singleton]
      rfl
    · show 8256 + (i - 1) * 1 = 8256 + (i - 1)
      omega
    · have h2' : i ≤ 16 := h2
      omega
  · refine coverage_case 8288 16 1 i ?_ ?_ ?_
    · rw [show plan_of "Y3" = [⟨ObjClass.coil, 8288, 16⟩] from by decide,
          plan_addrs_singleton]
      rfl
    · show 8288 + (i - 1) * 1 = 8288 + (i - 1)
      omega
    · have h2' : i ≤ 16 := h2
      omega
  · refine coverage_case 8320 16 1 i ?_ ?_ ?_
    · rw [show plan_of "Y4" = [⟨ObjClass.coil, 8320, 16⟩] from by decide,
          plan_addrs_singleton]
      rfl
    · show 8320 + (i - 1) * 1 = 8320 + (i - 1)
      omega
    · have h2' : i ≤ 16 := h2
      omega
  · refine coverage_case 8352 16 1 i ?_ ?_ ?_
    · rw [show plan_of "Y5" = [⟨ObjClass.coil, 8352, 16⟩] from by decide,
          plan_addrs_singleton]
      rfl
    · show 8352 + (i - 1) * 1 = 8352 + (i - 1)
      omega
    · have h2' : i ≤ 16 := h2
      omega
  · refine coverage_case 8384 16 1 i ?_ ?_ ?_
    · rw [show plan_of "Y6" = [⟨ObjClass.coil, 8384, 16⟩] from by decide,
          plan_addrs_singleton]
      rfl
    · show 8384 + (i - 1) * 1 = 8384 + (i - 1)
      omega
    · have h2' : i ≤ 16 := h2
      omega
  · refine coverage_case 8416 16 1 i ?_ ?_ ?_
    · rw [show plan_of "Y7" = [⟨ObjClass.coil, 8416, 16⟩] from by decide,
          plan_addrs_singleton]
      rfl
    · show 8416 + (i - 1) * 1 = 8416 + (i - 1)
      omega
    · have h2' : i ≤ 16 := h2
      omega
  · refine coverage_case 8448 16 1 i ?_ ?_ ?_
    · rw [show plan_of "Y8" = [⟨ObjClass.coil, 8448, 16⟩] from by decide,
          plan_addrs_singleton]
      rfl
    · show 8448 + (i - 1) * 1 = 8448 + (i - 1)
      omega
    · have h2' : i ≤ 16 := h2
      omega
  · refine coverage_case 45056 500 1 i ?_ ?_ ?_
    · rw [show plan_of "T" = [⟨ObjClass.coil, 45056, 500⟩] from by decide,
          plan_addrs_singleton]
      rfl
    · show 45056 + (i - 1) * 1 = 45056 + (i - 1)
      omega
    · have h2' : i ≤ 500 := h2
      omega
  · refine coverage_case 49152 250 1 i ?_ ?_ ?_
    · rw [show plan_of "CT" = [⟨ObjClass.coil, 49152, 250⟩] from by decide,
          plan_addrs_singleton]
      rfl
    · show 49152 + (i - 1) * 1 = 49152 + (i - 1)
      omega
    · have h2' : i ≤ 250 := h2
      omega
  · refine coverage_case 61440 1000 1 i ?_ ?_ ?_
    · rw [show plan_of "SC" = [⟨ObjClass.coil, 61440, 1000⟩] from by decide,
          plan_addrs_singleton]
      rfl
    · show 61440 + (i - 1) * 1 = 61440 + (i - 1)
      omega
    · have h2' : i ≤ 1000 := h2
      omega
  · refine coverage_case 0 4600 1 i ?_ ?_ ?_
    · rw [show plan_of "DS" = ((List.range 46).map (fun k => k * 100)).map
          (fun b => ⟨ObjClass.holding, 0 + b, 100⟩) from by decide]
      rw [block_plan_addrs]
    · show 0 + (i - 1) * 1 = 0 + (i - 1)
      omega
    · have h2' : i ≤ 4500 := h2
      omega
  · refine coverage_case 45056 600 1 i ?_ ?_ ?_
    · rw [show plan_of "TD" = ((List.range 6).map (fun k => k * 100)).map
          (fun b => ⟨ObjClass.holding, 45056 + b, 100⟩) from by decide]
      rw [block_plan_addrs]
    · show 45056 + (i - 1) * 1 = 45056 + (i - 1)
      omega
    · have h2' : i ≤ 500 := h2
      omega
  · refine coverage_case 61440 1100 1 i ?_ ?_ ?_
    · rw [show plan_of "SD" = ((List.range 11).map (fun k => k * 100)).map
          (fun b => ⟨ObjClass.holding, 61440 + b, 100⟩) from by decide]
      rw [block_plan_addrs]
    · show 61440 + (i - 1) * 1 = 61440 + (i - 1)
      omega
    · have h2' : i ≤ 1000 := h2
      omega
  · refine coverage_case 24576 600 1 i ?_ ?_ ?_
    · rw [show plan_of "DH" = ((List.range 6).map (fun k => k * 100)).map
          (fun b => ⟨ObjClass.holding, 24576 + b, 100⟩) from by decide]
      rw [block_plan_addrs]
    · show 24576 + (i - 1) * 1 = 24576 + (i - 1)
      omega
    · have h2' : i ≤ 500 := h2
      omega
  · refine coverage_case 36864 1100 1 i ?_ ?_ ?_
    · rw [show plan_of "TXT" = ((List.range 11).map (fun k => k * 100)).map
          (fun b => ⟨ObjClass.holding, 36864 + b, 100⟩) from by decide]
      rw [block_plan_addrs]
    · show 36864 + (i - 1) * 1 = 36864 + (i - 1)
      omega
    · have h2' : i ≤ 1000 := h2
      omega


/-- C1 witness: instance 1 of `X0` is covered exactly once. -/
theorem C1_coverage_witness :
    (plan_addrs (plan_of "X0")).count (inst_addr "X0" 1) = 1 :=
  C1_coverage "X0" (by decide) 1 (by decide) (by decide)

/-- C1 counterexample: for `DF` the coverage property fails — instance 500
lies in the catalogued range 1..500 but its resolver address
0x7000 + (500-1)*2 is touched by no planned request. -/
theorem C1_coverage_cex :
    ¬ (∀ i, inst_min "DF" ≤ i → i ≤ inst_max "DF" →
        (plan_addrs (plan_of "DF")).count (inst_addr "DF" i) = 1) := by
  intro h
  exact absurd (h 500 (by decide) (by decide)) (by decide)

end ClickMB


